import Mathlib

/-!
Shallow embedding of the synchronization core of the toko repository:
the inventory-sync, order-monitor and sync-scheduler edge functions.
Database effects are made explicit: query results are passed in as
`Except String` values and table writes are modelled as list appends
or per-row updates on explicit table states.
-/

namespace Toko

/-! ### Platforms and rate limiting (inventory-sync/index.ts) -/

inductive Platform where
  | shopee
  | tiktokshop
deriving DecidableEq, Repr

structure RateLimitConfig where
  requests : Nat
  window : Nat
deriving DecidableEq, Repr

/-- Mirrors the RATE_LIMITS table: 100 requests per 60 seconds for shopee,
60 per 60 for tiktokshop. -/
def RATE_LIMITS : Platform → RateLimitConfig
  | .shopee => ⟨100, 60⟩
  | .tiktokshop => ⟨60, 60⟩

/-- Mirrors checkRateLimit: the count query over sync_operations either
fails (store unavailable, modelled as `.error`) or yields a count.  On a
query error the function logs and returns `false`; otherwise it returns
whether the count is still below the configured ceiling. -/
def checkRateLimit (platform : Platform) (countResult : Except String Nat) : Bool :=
  match countResult with
  | .error _ => false
  | .ok count => count < (RATE_LIMITS platform).requests

/-! ### Products and low-stock alerts (inventory-sync/index.ts) -/

structure Product where
  id : String
  name : String
  sku : String
  stock_quantity : Int
  low_stock_threshold : Int
  shopee_listing_id : Option String
  tiktokshop_listing_id : Option String
  price : Int
  status : String
deriving DecidableEq, Repr

/-- Row shape inserted into the notifications table. -/
structure NotificationRow where
  kind : String
  title : String
  message : String
  severity : String
  entity_id : String
  read : Bool
deriving DecidableEq, Repr

/-- Mirrors the row built by sendLowStockAlert for a product. -/
def lowStockRow (p : Product) : NotificationRow :=
  { kind := "low_stock"
    title := "Low Stock Alert"
    message := "Product " ++ p.name ++ " (SKU: " ++ p.sku ++
      ") is running low. Current stock: " ++ toString p.stock_quantity
    severity := "warning"
    entity_id := p.id
    read := false }

/-- Mirrors sendLowStockAlert: a plain insert into the notifications
table, with no lookup for an existing equivalent row. -/
def sendLowStockAlert (ns : List NotificationRow) (p : Product) : List NotificationRow :=
  ns ++ [lowStockRow p]

/-! ### Per-product inventory sync (syncProductInventory) -/

/-- Outcomes of the effectful calls one syncProductInventory run makes:
the two rate-limit count queries and the two platform update calls. -/
structure SyncEnv where
  shopeeRateResult : Except String Nat
  tiktokRateResult : Except String Nat
  shopeeUpdateOk : Bool
  tiktokUpdateOk : Bool
deriving Repr

structure SyncProductResult where
  success : Bool
  errors : List String
  shopeeUpdateAttempted : Bool
  tiktokUpdateAttempted : Bool
  lowStockAlerts : List NotificationRow
deriving DecidableEq, Repr

/-- Mirrors syncProductInventory.  A product with no platform listing
returns early.  Otherwise each platform is rate-checked; a denied check
pushes a rate-limit error and the corresponding update is skipped;
a failed update pushes a sync-failure error.  After the updates, a
low-stock alert row is inserted whenever the current stock is at or
below the threshold and positive — regardless of any previous state. -/
def syncProductInventory (env : SyncEnv) (p : Product) : SyncProductResult :=
  let needsShopee := p.shopee_listing_id.isSome
  let needsTikTok := p.tiktokshop_listing_id.isSome
  if !needsShopee && !needsTikTok then
    { success := true, errors := [], shopeeUpdateAttempted := false
      tiktokUpdateAttempted := false, lowStockAlerts := [] }
  else
    let errs1 : List String :=
      if needsShopee && !(checkRateLimit .shopee env.shopeeRateResult) then
        ["Shopee rate limit exceeded"] else []
    let errs2 : List String :=
      errs1 ++ (if needsTikTok && !(checkRateLimit .tiktokshop env.tiktokRateResult) then
        ["TikTok Shop rate limit exceeded"] else [])
    let shopeeAttempted := needsShopee && !(errs2.contains "Shopee rate limit exceeded")
    let errs3 : List String :=
      errs2 ++ (if shopeeAttempted && !env.shopeeUpdateOk then ["Shopee sync failed"] else [])
    let tiktokAttempted := needsTikTok && !(errs3.contains "TikTok Shop rate limit exceeded")
    let errs4 : List String :=
      errs3 ++ (if tiktokAttempted && !env.tiktokUpdateOk then ["TikTok Shop sync failed"] else [])
    let alerts : List NotificationRow :=
      if p.stock_quantity ≤ p.low_stock_threshold && p.stock_quantity > 0 then
        sendLowStockAlert [] p else []
    { success := errs4.isEmpty
      errors := errs4
      shopeeUpdateAttempted := shopeeAttempted
      tiktokUpdateAttempted := tiktokAttempted
      lowStockAlerts := alerts }

/-! ### Whole-run inventory sync (getProductsForSync, performInventorySync) -/

/-- Mirrors getProductsForSync: the products query either fails — in
which case the error is caught, logged and an empty list returned — or
yields the selected products. -/
def getProductsForSync (queryResult : Except String (List Product)) : List Product :=
  match queryResult with
  | .error _ => []
  | .ok products => products

structure SyncSummary where
  success : Bool
  synced : Nat
  errors : List String
deriving DecidableEq, Repr

/-- Mirrors the aggregation loop of performInventorySync: per-product
results are folded in order; a successful product increments the synced
count, a failed one flips overall success and appends its errors. -/
def aggregateSync (envOf : Product → SyncEnv) (products : List Product) : SyncSummary :=
  products.foldl
    (fun acc p =>
      let r := syncProductInventory (envOf p) p
      if r.success then { acc with synced := acc.synced + 1 }
      else { acc with success := false, errors := acc.errors ++ r.errors })
    ⟨true, 0, []⟩

/-- Mirrors performInventorySync: an empty product list short-circuits
to a successful summary with zero synced products and no errors;
otherwise the batch loop aggregates the per-product results. -/
def performInventorySync (envOf : Product → SyncEnv)
    (queryResult : Except String (List Product)) : SyncSummary :=
  let products := getProductsForSync queryResult
  if products.length = 0 then ⟨true, 0, []⟩
  else aggregateSync envOf products

/-! ### Orders and alerts (order-monitor/index.ts) -/

structure OrderItem where
  id : String
  product_id : String
  sku : String
  name : String
  quantity : Nat
  unit_price : Int
  total_price : Int
deriving DecidableEq, Repr

structure Order where
  id : String
  platform_order_id : String
  platform : Platform
  customer_name : String
  total_amount : Int
  currency : String
  status : String
  items : List OrderItem
  tracking_number : Option String
deriving DecidableEq, Repr

/-- Alert record produced by the monitor; the metadata old and new
status fields are the ones a status_change alert carries. -/
structure OrderAlert where
  type : String
  order_id : String
  platform : Platform
  priority : String
  title : String
  message : String
  old_status : Option String
  new_status : Option String
deriving DecidableEq, Repr

structure AlertThresholds where
  HIGH_VALUE_ORDER : Int
  BULK_ORDER_SIZE : Nat
  MONITORING_INTERVAL : Nat
deriving DecidableEq, Repr

def ALERT_THRESHOLDS : AlertThresholds :=
  { HIGH_VALUE_ORDER := 1000, BULK_ORDER_SIZE := 10, MONITORING_INTERVAL := 5 }

/-- Row shape sendOrderNotification inserts into the notifications
table for an alert. -/
def orderNotificationRow (alert : OrderAlert) : NotificationRow :=
  { kind := alert.type
    title := alert.title
    message := alert.message
    severity := alert.priority
    entity_id := alert.order_id
    read := false }

/-- Mirrors sendOrderNotification: a plain insert of the alert into
the notifications table, with no lookup for an existing equivalent
active row. -/
def sendOrderNotification (ns : List NotificationRow) (alert : OrderAlert) :
    List NotificationRow :=
  ns ++ [orderNotificationRow alert]

/-- Mirrors the total quantity reduce over the items of an order. -/
def totalQuantity (o : Order) : Nat :=
  o.items.foldl (fun s it => s + it.quantity) 0

def newOrderAlert (o : Order) : OrderAlert :=
  { type := "new_order", order_id := o.id, platform := o.platform
    priority := "medium", title := "New Order Received"
    message := "New order " ++ o.platform_order_id ++ " from " ++
      o.customer_name ++ " for " ++ toString o.total_amount
    old_status := none, new_status := none }

def highValueAlert (o : Order) : OrderAlert :=
  { type := "high_value", order_id := o.id, platform := o.platform
    priority := "high", title := "High Value Order"
    message := "High value order " ++ toString o.total_amount ++
      " received from " ++ o.customer_name
    old_status := none, new_status := none }

def bulkOrderAlert (o : Order) : OrderAlert :=
  { type := "bulk_order", order_id := o.id, platform := o.platform
    priority := "medium", title := "Bulk Order"
    message := "Bulk order with " ++ toString (totalQuantity o) ++
      " items received from " ++ o.customer_name
    old_status := none, new_status := none }

/-- Alerts generated for one genuinely new order inside
checkForNewOrders: a base new_order alert, then a high_value alert when
the total is at or above the threshold, then a bulk_order alert when
the total item quantity reaches the bulk size. -/
def alertsForNewOrder (o : Order) : List OrderAlert :=
  [newOrderAlert o]
    ++ (if ALERT_THRESHOLDS.HIGH_VALUE_ORDER ≤ o.total_amount then [highValueAlert o] else [])
    ++ (if ALERT_THRESHOLDS.BULK_ORDER_SIZE ≤ totalQuantity o then [bulkOrderAlert o] else [])

/-- Mirrors checkForNewOrders: remote orders whose platform_order_id is
absent from the existing snapshot are the actual new orders; the
function returns the alerts it sends and the list of new orders. -/
def checkForNewOrders (existing current : List Order) :
    List OrderAlert × List Order :=
  let existingIds := existing.map (fun o => o.platform_order_id)
  let actualNew := current.filter (fun o => !(existingIds.contains o.platform_order_id))
  (actualNew.flatMap alertsForNewOrder, actualNew)

/-- Mirrors the Map built from the existing snapshot keyed by
platform_order_id: for duplicate keys a JS Map keeps the last entry. -/
def lookupExisting (existing : List Order) (pid : String) : Option Order :=
  (existing.filter (fun o => o.platform_order_id == pid)).getLast?

def statusChangeAlert (ex cur : Order) : OrderAlert :=
  { type := "status_change", order_id := cur.id, platform := cur.platform
    priority := "medium", title := "Order Status Updated"
    message := "Order " ++ cur.platform_order_id ++ " status changed from " ++
      ex.status ++ " to " ++ cur.status
    old_status := some ex.status, new_status := some cur.status }

def shippingUpdateAlert (cur : Order) : OrderAlert :=
  { type := "shipping_update", order_id := cur.id, platform := cur.platform
    priority := "low", title := "Order Shipped"
    message := "Order " ++ cur.platform_order_id ++ " has been shipped"
    old_status := none, new_status := none }

/-- Alerts one current order contributes in checkOrderStatusChanges:
nothing when it is absent from the existing snapshot or its status is
unchanged; otherwise a status_change alert, plus a shipping_update
alert when the new status is shipped. -/
def statusAlertsFor (existing : List Order) (cur : Order) : List OrderAlert :=
  match lookupExisting existing cur.platform_order_id with
  | none => []
  | some ex =>
    if ex.status ≠ cur.status then
      [statusChangeAlert ex cur] ++
        (if cur.status = "shipped" then [shippingUpdateAlert cur] else [])
    else []

/-- Mirrors checkOrderStatusChanges: every current order is compared
against the existing snapshot and the resulting alerts are sent in
order. -/
def checkOrderStatusChanges (existing current : List Order) : List OrderAlert :=
  current.flatMap (statusAlertsFor existing)

/-! ### Jobs, schedules, retries (sync-scheduler/index.ts) -/

structure SyncJob where
  id : String
  type : String
  platform : String
  status : String
  scheduled_at : Int
  priority : String
  retry_count : Nat
  max_retries : Nat
  error_message : Option String
deriving DecidableEq, Repr

/-- Mirrors the DEFAULT_SCHEDULES max_retries lookup keyed by the
uppercased job type, with fallback 3 for unknown types. -/
def defaultMaxRetries (jobType : String) : Nat :=
  if jobType = "inventory_sync" then 3
  else if jobType = "order_monitor" then 3
  else if jobType = "status_sync" then 2
  else 3

/-- Mirrors the row created by createSyncJob: retry_count is always
written as 0 and max_retries comes from the defaults table. -/
def createSyncJobRow (jobId : String) (jobType platform status : String)
    (scheduled_at : Int) (priority : String) : SyncJob :=
  { id := jobId, type := jobType, platform := platform, status := status
    scheduled_at := scheduled_at, priority := priority, retry_count := 0
    max_retries := defaultMaxRetries jobType, error_message := none }

/-- Mirrors job.max_retries with JS fallback 3: the fallback also fires
when the stored value is 0, which is falsy. -/
def maxRetriesOr3 (j : SyncJob) : Nat :=
  if j.max_retries = 0 then 3 else j.max_retries

/-- Mirrors the exponential backoff Math.pow(2, retry_count) * 5 in
minutes. -/
def backoffMinutes (retryCount : Nat) : Nat := 2 ^ retryCount * 5

/-- New pending job row created for a retry of j, scheduled at now plus
the backoff converted to milliseconds. -/
def retryJobRow (now : Int) (newId : String) (j : SyncJob) : SyncJob :=
  createSyncJobRow newId j.type j.platform "pending"
    (now + (backoffMinutes j.retry_count : Int) * 60 * 1000) j.priority

/-- Tables retryFailedJobs can touch: the sync_jobs table it reads and
writes, and the notifications table it could write alerts to. -/
structure SchedulerState where
  sync_jobs : List SyncJob
  notifications : List NotificationRow
deriving DecidableEq, Repr

/-- Mirrors the body of the loop over the fetched failed jobs: when the
retry count is below the falsy-defaulted max, a new job row is inserted
and then the row matching the ORIGINAL id gets its retry_count
incremented in place. -/
def retryStep (now : Int) (newId : String) (table : List SyncJob) (j : SyncJob) :
    List SyncJob :=
  if j.retry_count < maxRetriesOr3 j then
    (table ++ [retryJobRow now newId j]).map
      (fun x => if x.id = j.id then { x with retry_count := x.retry_count + 1 } else x)
  else table

/-- Mirrors retryFailedJobs: the query selects jobs with status failed
and retry_count strictly below the literal 3, the loop then retries the
eligible ones; fresh job ids are supplied by idGen.  No write to the
notifications table occurs anywhere in the function. -/
def retryFailedJobs (now : Int) (idGen : Nat → String) (st : SchedulerState) :
    SchedulerState :=
  { sync_jobs :=
      ((st.sync_jobs.filter fun j =>
          j.status == "failed" && decide (j.retry_count < 3)).enum).foldl
        (fun table p => retryStep now (idGen p.1) table p.2) st.sync_jobs
    notifications := st.notifications }

structure SyncSchedule where
  id : String
  job_type : String
  platform : String
  interval_minutes : Nat
  is_active : Bool
  priority : String
  next_run : Int
  last_run : Option Int
deriving DecidableEq, Repr

/-- Mirrors getActiveSchedules: schedules with is_active true and
next_run at or before now. -/
def getActiveSchedules (now : Int) (schedules : List SyncSchedule) :
    List SyncSchedule :=
  schedules.filter (fun s => s.is_active && decide (s.next_run ≤ now))

/-- Mirrors calculateNextRun: the interval in minutes is added to the
CURRENT time, not to the previous next_run. -/
def calculateNextRun (now : Int) (intervalMinutes : Nat) : Int :=
  now + (intervalMinutes : Int) * 60 * 1000

/-- Pending job row created for a due schedule inside the loop of
runScheduledJobs. -/
def scheduleJobRow (now : Int) (jobId : String) (sc : SyncSchedule) : SyncJob :=
  createSyncJobRow jobId sc.job_type sc.platform "pending" now sc.priority

/-- Mirrors updateScheduleNextRun as called in the loop: the matching
schedule row gets next_run recomputed from now and last_run set. -/
def updateScheduleRow (now : Int) (sc : SyncSchedule) (x : SyncSchedule) :
    SyncSchedule :=
  { x with next_run := calculateNextRun now sc.interval_minutes, last_run := some now }

structure TickState where
  schedules : List SyncSchedule
  sync_jobs : List SyncJob
deriving DecidableEq, Repr

/-- Effect of the updateJobStatus call that marks a job running. -/
def markRunning (jx : SyncJob) : SyncJob :=
  { jx with status := "running" }

/-- Effect of the updateJobStatus call after execution: completed on
success, failed with an error message otherwise. -/
def markExecuted (execOk : Bool) (jx : SyncJob) : SyncJob :=
  { jx with
    status := (if execOk then "completed" else "failed"),
    error_message := (if execOk then none else some "execution failed") }

/-- Mirrors one iteration of the loop in runScheduledJobs: insert the
pending job, advance next_run of the schedule row matching by id, then
execute the job — updateJobStatus targets the job id, setting it
running and then completed or failed according to the outcome. -/
def runStep (now : Int) (jobId : String) (execOk : Bool) (st : TickState)
    (sc : SyncSchedule) : TickState :=
  { schedules := st.schedules.map
      (fun x => if x.id = sc.id then updateScheduleRow now sc x else x)
    sync_jobs :=
      ((st.sync_jobs ++ [scheduleJobRow now jobId sc]).map
        (fun jx => if jx.id = jobId then markRunning jx else jx)).map
        (fun jx => if jx.id = jobId then markExecuted execOk jx else jx) }

/-- Mirrors runScheduledJobs: one job per due schedule, executed
immediately; execution outcomes and fresh job ids come from the oracles
execOk and idGen. -/
def runScheduledJobs (now : Int) (idGen : Nat → String) (execOk : Nat → Bool)
    (st : TickState) : TickState :=
  ((getActiveSchedules now st.schedules).enum).foldl
    (fun acc p => runStep now (idGen p.1) (execOk p.1) acc p.2) st

/-- The job row as it stands at the end of one loop iteration, after
its execution updated the status. -/
def executedJobRow (now : Int) (jobId : String) (execOk : Bool)
    (sc : SyncSchedule) : SyncJob :=
  markExecuted execOk (scheduleJobRow now jobId sc)

end Toko

namespace Toko

/-- Sample product used in concrete evaluations: carries a shopee
listing and a stock level strictly below its threshold. -/
def sampleProduct : Product :=
  { id := "prod-1", name := "Widget", sku := "W-1", stock_quantity := 8
    low_stock_threshold := 10, shopee_listing_id := some "sh-1"
    tiktokshop_listing_id := none, price := 100, status := "active" }

/-- Environment in which the shopee rate-limit count query fails
(counter store unavailable) while everything else succeeds. -/
def storeDownEnv : SyncEnv :=
  { shopeeRateResult := .error "counter store unavailable"
    tiktokRateResult := .ok 0
    shopeeUpdateOk := true
    tiktokUpdateOk := true }

/-- Environment in which every effectful call succeeds and both rate
windows are empty. -/
def allOkEnv : SyncEnv :=
  { shopeeRateResult := .ok 0
    tiktokRateResult := .ok 0
    shopeeUpdateOk := true
    tiktokUpdateOk := true }

/-- C1: when the rate-limit counter store is unavailable (the count
query returns an error), checkRateLimit returns false — not true — and
a sync of a product with a shopee listing is blocked with a rate-limit
error instead of proceeding to the platform update.  The code fails
closed at this input, while the spec, and the in-code comment saying
to proceed when the check fails, require failing open. -/
theorem c1_rate_limiter_fails_closed_at_store_error :
    checkRateLimit .shopee (.error "counter store unavailable") = false ∧
    (syncProductInventory storeDownEnv sampleProduct).shopeeUpdateAttempted = false ∧
    (syncProductInventory storeDownEnv sampleProduct).errors = ["Shopee rate limit exceeded"] ∧
    (syncProductInventory storeDownEnv sampleProduct).success = false := by
  refine ⟨rfl, rfl, rfl, rfl⟩

/-- C7 counterexample: syncProductInventory takes no previous-state
input at all, so a pass over a product whose stock is unchanged since
the previous pass still inserts a low-stock alert row whenever the
current stock is at or below the threshold and positive.  Two
consecutive passes over the identical product each produce one alert;
the claim requires the unchanged pass to produce zero alerts. -/
theorem c7_unchanged_pass_still_alerts :
    (syncProductInventory allOkEnv sampleProduct).lowStockAlerts
      = [lowStockRow sampleProduct] ∧
    (syncProductInventory allOkEnv sampleProduct).lowStockAlerts ≠ [] := by
  exact ⟨rfl, by decide⟩

/-- C7 amended: a low-stock alert is produced on every sync pass over a
product that has at least one platform listing and whose current stock
is at or below its threshold and positive — independent of any previous
stock level; there is no crossing detection and no restock alert of any
kind in the code. -/
theorem c7_low_stock_alert_unconditional (env : SyncEnv) (p : Product) :
    (syncProductInventory env p).lowStockAlerts =
      if (p.shopee_listing_id.isSome || p.tiktokshop_listing_id.isSome)
          && (p.stock_quantity ≤ p.low_stock_threshold && p.stock_quantity > 0) then
        [lowStockRow p]
      else [] := by
  unfold syncProductInventory sendLowStockAlert
  cases ha : p.shopee_listing_id.isSome <;>
    cases hb : p.tiktokshop_listing_id.isSome <;>
      simp [ha, hb]

/-- Concrete new-order alert used in closed evaluations. -/
def sampleOrderAlert : OrderAlert :=
  { type := "new_order", order_id := "shopee_X1", platform := .shopee
    priority := "medium", title := "New Order Received"
    message := "New order X1", old_status := none, new_status := none }

/-- High-value order used in closed evaluations: platform_order_id X1,
status paid, total 1500, absent from the local snapshot. -/
def orderX1 : Order :=
  { id := "shopee_X1", platform_order_id := "X1", platform := .shopee
    customer_name := "Buyer", total_amount := 1500, currency := "USD"
    status := "paid", items := [], tracking_number := none }

/-- C2 counterexample: emitting the same alert twice into an initially
empty notifications table persists two rows, not one; the second
emission is a second unconditional insert, not a no-op guarded by a
lookup. -/
theorem c2_double_emit_persists_two_rows :
    (sendOrderNotification (sendOrderNotification [] sampleOrderAlert) sampleOrderAlert).length = 2 ∧
    (sendOrderNotification (sendOrderNotification [] sampleOrderAlert) sampleOrderAlert).length ≠ 1 := by
  decide

/-- C2 amended: both notification emitters insert unconditionally —
they never inspect the existing table — so emitting the same alert (or
the same low-stock product) twice appends two equal rows regardless of
what the table already holds. -/
theorem c2_emit_always_inserts (ns : List NotificationRow) (a : OrderAlert) (p : Product) :
    sendOrderNotification ns a = ns ++ [orderNotificationRow a] ∧
    sendOrderNotification (sendOrderNotification ns a) a
      = ns ++ [orderNotificationRow a, orderNotificationRow a] ∧
    sendLowStockAlert (sendLowStockAlert ns p) p
      = ns ++ [lowStockRow p, lowStockRow p] := by
  refine ⟨rfl, ?_, ?_⟩ <;> simp [sendOrderNotification, sendLowStockAlert]

/-- C8 counterexample: the remote order X1 with total 1500 and
threshold 1000 yields exactly one high_value alert, and its priority is
the string high — the priority critical claimed by the spec does not
occur (the priority vocabulary of the monitor is low, medium, high,
urgent). -/
theorem c8_high_value_priority_is_high_not_critical :
    ((checkForNewOrders [] [orderX1]).1.filter
        (fun a => a.type == "high_value")).map (fun a => a.priority) = ["high"] ∧
    ("high" : String) ≠ "critical" := by
  decide

/-- C8 amended: every genuinely new order whose total reaches the
configured high-value threshold (1000) produces a high_value alert, and
that alert carries priority high. -/
theorem c8_high_value_order_gets_high_priority_alert
    (existing current : List Order) (o : Order)
    (hmem : o ∈ (checkForNewOrders existing current).2)
    (hval : ALERT_THRESHOLDS.HIGH_VALUE_ORDER ≤ o.total_amount) :
    highValueAlert o ∈ (checkForNewOrders existing current).1 ∧
    (highValueAlert o).priority = "high" ∧
    (highValueAlert o).type = "high_value" := by
  refine ⟨?_, rfl, rfl⟩
  have hin : highValueAlert o ∈ alertsForNewOrder o := by
    unfold alertsForNewOrder
    simp [hval]
  have h1 : (checkForNewOrders existing current).1
      = ((checkForNewOrders existing current).2).flatMap alertsForNewOrder := rfl
  rw [h1]
  exact List.mem_flatMap.mpr ⟨o, hmem, hin⟩

/-- C8 amended witness: the theorem applied to the concrete order X1
absent from an empty local snapshot. -/
theorem c8_high_value_order_gets_high_priority_alert_witness :
    highValueAlert orderX1 ∈ (checkForNewOrders [] [orderX1]).1 ∧
    (highValueAlert orderX1).priority = "high" ∧
    (highValueAlert orderX1).type = "high_value" :=
  c8_high_value_order_gets_high_priority_alert [] [orderX1] orderX1 (by decide) (by decide)

/-- Helper: with pairwise-distinct platform_order_ids, filtering the
snapshot for the id of one of its members yields exactly that member. -/
lemma filter_pid_singleton (x : Order) :
    ∀ (l : List Order), ((l.map fun o => o.platform_order_id).Nodup) → x ∈ l →
      l.filter (fun o => o.platform_order_id == x.platform_order_id) = [x] := by
  intro l
  induction l with
  | nil => intro _ hx; cases hx
  | cons h t ih =>
    intro hnd hx
    rw [List.map_cons, List.nodup_cons] at hnd
    obtain ⟨hnotin, hndt⟩ := hnd
    rw [List.filter_cons]
    rcases List.mem_cons.mp hx with rfl | hxt
    · rw [if_pos (by simp)]
      have ht : t.filter (fun o => o.platform_order_id == x.platform_order_id) = [] := by
        rw [List.filter_eq_nil_iff]
        intro y hy hbeq
        exact hnotin (List.mem_map.mpr ⟨y, hy, by simpa using hbeq⟩)
      rw [ht]
    · have hne : ¬ (h.platform_order_id == x.platform_order_id) = true := by
        simp only [beq_iff_eq]
        intro hEq
        exact hnotin (hEq ▸ List.mem_map.mpr ⟨x, hxt, rfl⟩)
      rw [if_neg hne]
      exact ih hndt hxt

/-- Helper: under distinct ids, the Map lookup for the id of a snapshot
member returns that member. -/
lemma lookupExisting_self (l : List Order)
    (hnd : (l.map fun o => o.platform_order_id).Nodup) (x : Order) (hx : x ∈ l) :
    lookupExisting l x.platform_order_id = some x := by
  unfold lookupExisting
  rw [filter_pid_singleton x l hnd hx]
  rfl

/-- Helper: statusAlertsFor unfolded on a successful lookup. -/
lemma statusAlertsFor_eq_of_lookup (l : List Order) (cur ex : Order)
    (hlk : lookupExisting l cur.platform_order_id = some ex) :
    statusAlertsFor l cur =
      if ex.status ≠ cur.status then
        [statusChangeAlert ex cur] ++
          (if cur.status = "shipped" then [shippingUpdateAlert cur] else [])
      else [] := by
  unfold statusAlertsFor
  rw [hlk]

/-- Helper: a current order already present with an unchanged status
contributes no alert. -/
lemma statusAlertsFor_self (l : List Order)
    (hnd : (l.map fun o => o.platform_order_id).Nodup) (x : Order) (hx : x ∈ l) :
    statusAlertsFor l x = [] := by
  rw [statusAlertsFor_eq_of_lookup l x x (lookupExisting_self l hnd x hx)]
  simp

/-- Helper: a block of current orders taken unchanged from the existing
snapshot contributes no alert at all. -/
lemma flatMap_statusAlerts_nil (l : List Order)
    (hnd : (l.map fun o => o.platform_order_id).Nodup) (xs : List Order)
    (hsub : ∀ x ∈ xs, x ∈ l) :
    xs.flatMap (statusAlertsFor l) = [] := by
  induction xs with
  | nil => rfl
  | cons y ys ih =>
    rw [List.flatMap_cons, statusAlertsFor_self l hnd y (hsub y (by simp)),
      List.nil_append]
    exact ih (fun x hx => hsub x (List.mem_cons_of_mem _ hx))

/-- C9: when the remote snapshot is the local snapshot with exactly one
order (matched by platform_order_id, with ids pairwise distinct)
changed only in its status field, checkOrderStatusChanges produces
exactly one status_change alert, and that alert carries the old and the
new status. -/
theorem c9_one_status_diff_one_transition
    (a b : List Order) (o : Order) (newStatus : String)
    (hnd : ((a ++ o :: b).map (fun x => x.platform_order_id)).Nodup)
    (hne : newStatus ≠ o.status) :
    (checkOrderStatusChanges (a ++ o :: b)
        (a ++ { o with status := newStatus } :: b)).filter
        (fun al => al.type == "status_change")
      = [statusChangeAlert o { o with status := newStatus }] ∧
    (statusChangeAlert o { o with status := newStatus }).old_status = some o.status ∧
    (statusChangeAlert o { o with status := newStatus }).new_status = some newStatus := by
  refine ⟨?_, rfl, rfl⟩
  unfold checkOrderStatusChanges
  rw [List.flatMap_append, List.flatMap_cons]
  have hsubA : ∀ x ∈ a, x ∈ a ++ o :: b := fun x hx => List.mem_append_left _ hx
  have hsubB : ∀ x ∈ b, x ∈ a ++ o :: b :=
    fun x hx => List.mem_append_right _ (List.mem_cons_of_mem _ hx)
  rw [flatMap_statusAlerts_nil _ hnd a hsubA, flatMap_statusAlerts_nil _ hnd b hsubB,
    List.append_nil, List.nil_append]
  have hlook : lookupExisting (a ++ o :: b)
      ({ o with status := newStatus } : Order).platform_order_id = some o :=
    lookupExisting_self _ hnd o (List.mem_append_right _ (List.mem_cons_self _ _))
  rw [statusAlertsFor_eq_of_lookup _ _ _ hlook]
  have hcond : o.status ≠ ({ o with status := newStatus } : Order).status :=
    fun h => hne h.symm
  rw [if_pos hcond]
  by_cases hsh : ({ o with status := newStatus } : Order).status = "shipped"
  · rw [if_pos hsh]
    simp [statusChangeAlert, shippingUpdateAlert]
  · rw [if_neg hsh]
    simp [statusChangeAlert]

/-- Concrete order used by the C9 witness. -/
def orderX2 : Order :=
  { id := "shopee_X2", platform_order_id := "X2", platform := .shopee
    customer_name := "Buyer", total_amount := 100, currency := "USD"
    status := "paid", items := [], tracking_number := none }

/-- C9 witness: the theorem applied to a one-order snapshot whose
status changes from paid to shipped. -/
theorem c9_one_status_diff_one_transition_witness :
    (checkOrderStatusChanges [orderX2] [{ orderX2 with status := "shipped" }]).filter
        (fun al => al.type == "status_change")
      = [statusChangeAlert orderX2 { orderX2 with status := "shipped" }] ∧
    (statusChangeAlert orderX2 { orderX2 with status := "shipped" }).old_status
      = some orderX2.status ∧
    (statusChangeAlert orderX2 { orderX2 with status := "shipped" }).new_status
      = some "shipped" :=
  c9_one_status_diff_one_transition [] [] orderX2 "shipped" (by decide) (by decide)

/-- Helper: retryFailedJobs on a table holding a single eligible failed
job appends the new retry row with retry_count 0 and increments the
retry_count of the original row in place. -/
lemma retryFailedJobs_single (now : Int) (idGen : Nat → String)
    (ns : List NotificationRow) (j : SyncJob)
    (hst : j.status = "failed") (h3 : j.retry_count < 3)
    (hmax : j.retry_count < maxRetriesOr3 j) (hid : idGen 0 ≠ j.id) :
    retryFailedJobs now idGen ⟨[j], ns⟩ =
      ⟨[{ j with retry_count := j.retry_count + 1 }, retryJobRow now (idGen 0) j], ns⟩ := by
  have hid2 : (retryJobRow now (idGen 0) j).id ≠ j.id := hid
  have hfil : (([j] : List SyncJob).filter fun x =>
      x.status == "failed" && decide (x.retry_count < 3)) = [j] := by
    simp [hst, h3]
  simp only [retryFailedJobs]
  rw [hfil]
  show SchedulerState.mk (retryStep now (idGen 0) [j] j) ns = _
  unfold retryStep
  rw [if_pos hmax]
  simp [hid2]

/-- Fresh-id generator used in concrete evaluations. -/
def idGenW : Nat → String := fun i => "retry-" ++ toString i

/-- Failed job with retry_count 0 used in concrete evaluations. -/
def failedJob0 : SyncJob :=
  { id := "job-1", type := "inventory_sync", platform := "shopee"
    status := "failed", scheduled_at := 0, priority := "medium"
    retry_count := 0, max_retries := 3, error_message := some "http 500" }

/-- C3 counterexample: retrying the failed job job-1 (retry_count 0)
yields a table whose NEW row retry-0 has retry_count 0 — not original
plus one — and whose ORIGINAL row job-1 now has retry_count 1 — it was
mutated in place, not left unchanged. -/
theorem c3_retry_rows_contradict_claim :
    ((retryFailedJobs 0 idGenW ⟨[failedJob0], []⟩).sync_jobs.map
        (fun j => (j.id, j.retry_count)))
      = [("job-1", 1), ("retry-0", 0)] ∧
    failedJob0.retry_count + 1 ≠ 0 ∧
    failedJob0.retry_count ≠ 1 := by
  decide

/-- C3 amended: for an eligible failed job the retry pass creates a new
pending Job row whose retry_count is 0 (createSyncJob hard-codes 0),
and updates the original failed row by incrementing its retry_count in
place; the original keeps its id, its status failed and every other
field. -/
theorem c3_retry_creates_zero_rc_row_and_increments_original (now : Int)
    (idGen : Nat → String) (ns : List NotificationRow) (j : SyncJob)
    (hst : j.status = "failed") (h3 : j.retry_count < 3)
    (hmax : j.retry_count < maxRetriesOr3 j) (hid : idGen 0 ≠ j.id) :
    retryFailedJobs now idGen ⟨[j], ns⟩ =
      ⟨[{ j with retry_count := j.retry_count + 1 }, retryJobRow now (idGen 0) j], ns⟩ ∧
    (retryJobRow now (idGen 0) j).retry_count = 0 ∧
    (retryJobRow now (idGen 0) j).status = "pending" ∧
    ({ j with retry_count := j.retry_count + 1 }).status = j.status ∧
    ({ j with retry_count := j.retry_count + 1 }).id = j.id :=
  ⟨retryFailedJobs_single now idGen ns j hst h3 hmax hid, rfl, rfl, rfl, rfl⟩

/-- C3 amended witness: the theorem applied to the concrete failed job
job-1 with retry_count 0. -/
theorem c3_retry_creates_zero_rc_row_and_increments_original_witness :
    retryFailedJobs 0 idGenW ⟨[failedJob0], []⟩ =
      ⟨[{ failedJob0 with retry_count := failedJob0.retry_count + 1 },
        retryJobRow 0 (idGenW 0) failedJob0], []⟩ ∧
    (retryJobRow 0 (idGenW 0) failedJob0).retry_count = 0 ∧
    (retryJobRow 0 (idGenW 0) failedJob0).status = "pending" ∧
    ({ failedJob0 with retry_count := failedJob0.retry_count + 1 }).status
      = failedJob0.status ∧
    ({ failedJob0 with retry_count := failedJob0.retry_count + 1 }).id
      = failedJob0.id :=
  c3_retry_creates_zero_rc_row_and_increments_original 0 idGenW [] failedJob0
    rfl (by decide) (by decide) (by decide)

/-- Failed job whose retry_count has reached its max_retries, used in
concrete evaluations. -/
def exhaustedJob : SyncJob :=
  { id := "job-x", type := "inventory_sync", platform := "shopee"
    status := "failed", scheduled_at := 0, priority := "medium"
    retry_count := 3, max_retries := 3, error_message := some "http 500" }

/-- C4 counterexample: for the failed job job-x whose retry_count 3 has
reached max_retries 3, the retry pass creates no further Job — that
half of the claim holds — but it also creates NO notification of any
kind: the notifications table stays empty, while the claim requires a
sync_error Notification announcing exhausted retries. -/
theorem c4_exhausted_retries_emit_nothing :
    retryFailedJobs 0 idGenW ⟨[exhaustedJob], []⟩ = ⟨[exhaustedJob], []⟩ ∧
    (retryFailedJobs 0 idGenW ⟨[exhaustedJob], []⟩).notifications = [] := by
  decide

/-- C4 amended: for every failed job whose retry_count has reached its
(falsy-defaulted) max_retries, the retry pass creates no further retry
Job and writes nothing at all — in particular no sync_error
Notification; exhausted retries stop silently. -/
theorem c4_exhausted_retries_silent (now : Int) (idGen : Nat → String)
    (ns : List NotificationRow) (j : SyncJob)
    (hexh : maxRetriesOr3 j ≤ j.retry_count) :
    retryFailedJobs now idGen ⟨[j], ns⟩ = ⟨[j], ns⟩ ∧
    (retryFailedJobs now idGen ⟨[j], ns⟩).notifications = ns := by
  have hmain : retryFailedJobs now idGen ⟨[j], ns⟩ = ⟨[j], ns⟩ := by
    by_cases h3 : j.retry_count < 3
    · by_cases hs : j.status = "failed"
      · have hfil : (([j] : List SyncJob).filter fun x =>
            x.status == "failed" && decide (x.retry_count < 3)) = [j] := by
          simp [hs, h3]
        simp only [retryFailedJobs]
        rw [hfil]
        show SchedulerState.mk (retryStep now (idGen 0) [j] j) ns = _
        unfold retryStep
        rw [if_neg (by omega)]
      · have hfil : (([j] : List SyncJob).filter fun x =>
            x.status == "failed" && decide (x.retry_count < 3)) = [] := by
          simp [hs]
        simp only [retryFailedJobs]
        rw [hfil]
        rfl
    · have hfil : (([j] : List SyncJob).filter fun x =>
          x.status == "failed" && decide (x.retry_count < 3)) = [] := by
        simp [h3]
      simp only [retryFailedJobs]
      rw [hfil]
      rfl
  exact ⟨hmain, by rw [hmain]⟩

/-- C4 amended witness: the theorem applied to the concrete exhausted
job job-x. -/
theorem c4_exhausted_retries_silent_witness :
    retryFailedJobs 0 idGenW ⟨[exhaustedJob], []⟩ = ⟨[exhaustedJob], []⟩ ∧
    (retryFailedJobs 0 idGenW ⟨[exhaustedJob], []⟩).notifications = [] :=
  c4_exhausted_retries_silent 0 idGenW [] exhaustedJob (by decide)

/-- C5: for an eligible failed job with retry_count r, the new retry
Job is the last row of the resulting table and its scheduled_at equals
the retry time plus 5 * 2 ^ r minutes in milliseconds — 5, 10, 20
minutes for r = 0, 1, 2. -/
theorem c5_backoff_doubles_from_five_minutes (now : Int) (idGen : Nat → String)
    (ns : List NotificationRow) (j : SyncJob)
    (hst : j.status = "failed") (h3 : j.retry_count < 3)
    (hmax : j.retry_count < maxRetriesOr3 j) (hid : idGen 0 ≠ j.id) :
    (retryFailedJobs now idGen ⟨[j], ns⟩).sync_jobs.getLast?
      = some (retryJobRow now (idGen 0) j) ∧
    (retryJobRow now (idGen 0) j).scheduled_at
      = now + ((5 * 2 ^ j.retry_count : Nat) : Int) * 60 * 1000 := by
  constructor
  · rw [retryFailedJobs_single now idGen ns j hst h3 hmax hid]
    rfl
  · show now + ((backoffMinutes j.retry_count : Nat) : Int) * 60 * 1000 = _
    unfold backoffMinutes
    push_cast
    ring

/-- Failed job with retry_count 1 used by the C5 witness. -/
def failedJob1 : SyncJob :=
  { id := "job-2", type := "inventory_sync", platform := "shopee"
    status := "failed", scheduled_at := 0, priority := "medium"
    retry_count := 1, max_retries := 3, error_message := some "http 500" }

/-- C5 witness: the theorem applied to the concrete failed job job-2
with retry_count 1, giving a 10 minute delay. -/
theorem c5_backoff_doubles_from_five_minutes_witness :
    (retryFailedJobs 0 idGenW ⟨[failedJob1], []⟩).sync_jobs.getLast?
      = some (retryJobRow 0 (idGenW 0) failedJob1) ∧
    (retryJobRow 0 (idGenW 0) failedJob1).scheduled_at
      = 0 + ((5 * 2 ^ failedJob1.retry_count : Nat) : Int) * 60 * 1000 :=
  c5_backoff_doubles_from_five_minutes 0 idGenW [] failedJob1
    rfl (by decide) (by decide) (by decide)

/-- Helper: a by-id update map leaves a job table unchanged when no row
carries the target id. -/
lemma map_jobs_id_noop (l : List SyncJob) (a : String) (f : SyncJob → SyncJob)
    (h : ∀ x ∈ l, x.id ≠ a) :
    l.map (fun x => if x.id = a then f x else x) = l := by
  induction l with
  | nil => rfl
  | cons y ys ih =>
    rw [List.map_cons, if_neg (h y (by simp)),
      ih (fun x hx => h x (List.mem_cons_of_mem _ hx))]

/-- Helper: the jobs table after one loop iteration is the old table
plus the executed job row, provided the fresh id clashes with no
existing row. -/
lemma runStep_jobs (now : Int) (jobId : String) (execOk : Bool)
    (st : TickState) (sc : SyncSchedule)
    (hfresh : ∀ x ∈ st.sync_jobs, x.id ≠ jobId) :
    (runStep now jobId execOk st sc).sync_jobs
      = st.sync_jobs ++ [executedJobRow now jobId execOk sc] := by
  have hidrow : (scheduleJobRow now jobId sc).id = jobId := rfl
  have hidrun : (markRunning (scheduleJobRow now jobId sc)).id = jobId := rfl
  have h1 : (st.sync_jobs ++ [scheduleJobRow now jobId sc]).map
      (fun jx => if jx.id = jobId then markRunning jx else jx)
      = st.sync_jobs ++ [markRunning (scheduleJobRow now jobId sc)] := by
    rw [List.map_append, map_jobs_id_noop st.sync_jobs jobId _ hfresh]
    simp [hidrow]
  have h2 : (st.sync_jobs ++ [markRunning (scheduleJobRow now jobId sc)]).map
      (fun jx => if jx.id = jobId then markExecuted execOk jx else jx)
      = st.sync_jobs ++ [markExecuted execOk (markRunning (scheduleJobRow now jobId sc))] := by
    rw [List.map_append, map_jobs_id_noop st.sync_jobs jobId _ hfresh]
    simp [hidrun]
  show ((st.sync_jobs ++ [scheduleJobRow now jobId sc]).map _).map _ = _
  rw [h1, h2]
  rfl

/-- Helper: the jobs table after the whole loop is the old table plus
one executed row per due schedule, provided the generated ids are fresh
and pairwise distinct. -/
lemma runFold_jobs (now : Int) (idGen : Nat → String) (execOk : Nat → Bool) :
    ∀ (ps : List (Nat × SyncSchedule)) (st : TickState),
      (∀ p ∈ ps, ∀ x ∈ st.sync_jobs, x.id ≠ idGen p.1) →
      ((ps.map fun p => idGen p.1).Nodup) →
      (ps.foldl (fun acc p => runStep now (idGen p.1) (execOk p.1) acc p.2) st).sync_jobs
        = st.sync_jobs ++
            ps.map (fun p => executedJobRow now (idGen p.1) (execOk p.1) p.2) := by
  intro ps
  induction ps with
  | nil => intro st _ _; simp
  | cons p rest ih =>
    intro st hfresh hnd
    rw [List.map_cons, List.nodup_cons] at hnd
    obtain ⟨hnotin, hndr⟩ := hnd
    rw [List.foldl_cons]
    have hstep : (runStep now (idGen p.1) (execOk p.1) st p.2).sync_jobs
        = st.sync_jobs ++ [executedJobRow now (idGen p.1) (execOk p.1) p.2] :=
      runStep_jobs _ _ _ _ _ (fun x hx => hfresh p (by simp) x hx)
    have hfresh2 : ∀ q ∈ rest,
        ∀ x ∈ (runStep now (idGen p.1) (execOk p.1) st p.2).sync_jobs,
          x.id ≠ idGen q.1 := by
      intro q hq x hx
      rw [hstep] at hx
      rcases List.mem_append.mp hx with hx1 | hx2
      · exact hfresh q (List.mem_cons_of_mem _ hq) x hx1
      · have hxe := List.mem_singleton.mp hx2
        rw [hxe]
        intro hEq
        have hEq2 : idGen p.1 = idGen q.1 := hEq
        exact hnotin (hEq2 ▸ List.mem_map.mpr ⟨q, hq, rfl⟩)
    rw [ih _ hfresh2 hndr, hstep, List.append_assoc, List.singleton_append,
      List.map_cons]

/-- Helper: the schedules component of the loop evolves by the chain of
by-id schedule updates alone. -/
lemma runFold_schedules (now : Int) (idGen : Nat → String) (execOk : Nat → Bool) :
    ∀ (ps : List (Nat × SyncSchedule)) (st : TickState),
      (ps.foldl (fun acc p => runStep now (idGen p.1) (execOk p.1) acc p.2) st).schedules
        = ps.foldl (fun sch p => sch.map
            (fun x => if x.id = p.2.id then updateScheduleRow now p.2 x else x))
            st.schedules := by
  intro ps
  induction ps with
  | nil => intro st; rfl
  | cons p rest ih =>
    intro st
    rw [List.foldl_cons, List.foldl_cons, ih]
    rfl

/-- Helper: folding a family of maps over a list is the map of the
pointwise fold. -/
lemma foldl_map_pointwise {α β : Type} (g : β → α → α) :
    ∀ (ps : List β) (l : List α),
      ps.foldl (fun acc p => acc.map (g p)) l
        = l.map (fun x => ps.foldl (fun y p => g p y) x) := by
  intro ps
  induction ps with
  | nil => intro l; simp
  | cons p rest ih =>
    intro l
    rw [List.foldl_cons, ih, List.map_map]
    rfl

/-- Helper: a fold over the enumerated list whose body ignores the
index is the fold over the plain list. -/
lemma foldl_enum_snd {α β : Type} (f : β → α → β) (l : List α) (b : β) :
    l.enum.foldl (fun y p => f y p.2) b = l.foldl f b := by
  conv_rhs => rw [← List.enum_map_snd l]
  rw [List.foldl_map]

/-- Helper: the by-id schedule update chain fixes an element whose id
matches none of the due schedules. -/
lemma schedChain_noop (now : Int) :
    ∀ (ds : List SyncSchedule) (y : SyncSchedule),
      (∀ d ∈ ds, d.id ≠ y.id) →
      ds.foldl (fun z d => if z.id = d.id then updateScheduleRow now d z else z) y = y := by
  intro ds
  induction ds with
  | nil => intro y _; rfl
  | cons d rest ih =>
    intro y h
    rw [List.foldl_cons, if_neg (fun hEq => h d (by simp) hEq.symm)]
    exact ih y (fun d2 hd2 => h d2 (List.mem_cons_of_mem _ hd2))

/-- Helper: the chain updates the unique matching schedule exactly
once, from its own interval. -/
lemma schedChain_update (now : Int) (x : SyncSchedule) (d1 d2 : List SyncSchedule)
    (h1 : ∀ d ∈ d1, d.id ≠ x.id) (h2 : ∀ d ∈ d2, d.id ≠ x.id) :
    (d1 ++ x :: d2).foldl
        (fun z d => if z.id = d.id then updateScheduleRow now d z else z) x
      = updateScheduleRow now x x := by
  rw [List.foldl_append, schedChain_noop now d1 x h1, List.foldl_cons, if_pos rfl]
  exact schedChain_noop now d2 (updateScheduleRow now x x) h2

/-- Helper: evaluation of the whole update chain at one schedule row:
a due row is advanced from now by its own interval, any other row is
untouched. -/
lemma schedChain_eval (now : Int) (schedules : List SyncSchedule)
    (hids : (schedules.map fun s => s.id).Nodup) (x : SyncSchedule)
    (hx : x ∈ schedules) :
    (getActiveSchedules now schedules).foldl
        (fun y d => if y.id = d.id then updateScheduleRow now d y else y) x
      = if x.is_active && decide (x.next_run ≤ now) then updateScheduleRow now x x
        else x := by
  by_cases hp : (x.is_active && decide (x.next_run ≤ now)) = true
  · rw [if_pos hp]
    have hxdue : x ∈ getActiveSchedules now schedules :=
      List.mem_filter.mpr ⟨hx, hp⟩
    obtain ⟨d1, d2, hsplit⟩ := List.append_of_mem hxdue
    have hdnd : ((getActiveSchedules now schedules).map fun s => s.id).Nodup :=
      hids.sublist ((List.filter_sublist schedules).map _)
    rw [hsplit, List.map_append, List.map_cons] at hdnd
    have hmid := (List.nodup_middle.mp hdnd)
    rw [List.nodup_cons] at hmid
    obtain ⟨hxid, _⟩ := hmid
    have h1 : ∀ d ∈ d1, d.id ≠ x.id := by
      intro d hd hEq
      exact hxid (List.mem_append_left _ (hEq ▸ List.mem_map.mpr ⟨d, hd, rfl⟩))
    have h2 : ∀ d ∈ d2, d.id ≠ x.id := by
      intro d hd hEq
      exact hxid (List.mem_append_right _ (hEq ▸ List.mem_map.mpr ⟨d, hd, rfl⟩))
    rw [hsplit]
    exact schedChain_update now x d1 d2 h1 h2
  · rw [if_neg hp]
    apply schedChain_noop
    intro d hd hEq
    have hdm := List.mem_filter.mp hd
    have hdx : d = x := List.inj_on_of_nodup_map hids hdm.1 hx hEq
    rw [hdx] at hdm
    exact hp hdm.2

/-- C6: on one scheduler tick, with pairwise-distinct schedule ids and
fresh pairwise-distinct generated job ids, exactly one job row is
appended per active due schedule (none for inactive or not-yet-due
ones), and every due schedule has next_run reset to now plus its own
interval — computed from the current time, not from the previous
next_run — with last_run set to now; all other schedules are
untouched. -/
theorem c6_tick_one_job_per_due_schedule (now : Int) (idGen : Nat → String)
    (execOk : Nat → Bool) (st : TickState)
    (hids : (st.schedules.map fun s => s.id).Nodup)
    (hfresh : ∀ p ∈ (getActiveSchedules now st.schedules).enum,
        ∀ x ∈ st.sync_jobs, x.id ≠ idGen p.1)
    (hnd : (((getActiveSchedules now st.schedules).enum.map fun p => idGen p.1)).Nodup) :
    runScheduledJobs now idGen execOk st =
      { schedules := st.schedules.map (fun x =>
          if x.is_active && decide (x.next_run ≤ now) then updateScheduleRow now x x
          else x)
        sync_jobs := st.sync_jobs ++
          (getActiveSchedules now st.schedules).enum.map
            (fun p => executedJobRow now (idGen p.1) (execOk p.1) p.2) } := by
  have hjobs : (runScheduledJobs now idGen execOk st).sync_jobs
      = st.sync_jobs ++
          (getActiveSchedules now st.schedules).enum.map
            (fun p => executedJobRow now (idGen p.1) (execOk p.1) p.2) :=
    runFold_jobs now idGen execOk (getActiveSchedules now st.schedules).enum st hfresh hnd
  have hscheds : (runScheduledJobs now idGen execOk st).schedules
      = st.schedules.map (fun x =>
          if x.is_active && decide (x.next_run ≤ now) then updateScheduleRow now x x
          else x) := by
    have hrw : (runScheduledJobs now idGen execOk st).schedules
        = ((getActiveSchedules now st.schedules).enum).foldl
            (fun sch p => sch.map
              (fun x => if x.id = p.2.id then updateScheduleRow now p.2 x else x))
            st.schedules :=
      runFold_schedules now idGen execOk (getActiveSchedules now st.schedules).enum st
    rw [hrw, foldl_map_pointwise]
    apply List.map_congr_left
    intro x hx
    rw [foldl_enum_snd (fun y d => if y.id = d.id then updateScheduleRow now d y else y)]
    exact schedChain_eval now st.schedules hids x hx
  have heta : runScheduledJobs now idGen execOk st =
      ⟨(runScheduledJobs now idGen execOk st).schedules,
        (runScheduledJobs now idGen execOk st).sync_jobs⟩ := rfl
  rw [heta, hscheds, hjobs]

/-- Schedules used by the C6 witness: one due active schedule, one
inactive schedule, one active schedule that is not yet due. -/
def schedA : SyncSchedule :=
  { id := "sch-1", job_type := "inventory_sync", platform := "shopee"
    interval_minutes := 15, is_active := true, priority := "medium"
    next_run := 500, last_run := none }

def schedB : SyncSchedule :=
  { id := "sch-2", job_type := "order_monitor", platform := "all"
    interval_minutes := 5, is_active := false, priority := "high"
    next_run := 0, last_run := none }

def schedC : SyncSchedule :=
  { id := "sch-3", job_type := "status_sync", platform := "tiktokshop"
    interval_minutes := 30, is_active := true, priority := "low"
    next_run := 99999, last_run := none }

/-- Fresh job-id generator used by the C6 witness. -/
def idGenT : Nat → String := fun i => "newjob-" ++ toString i

/-- C6 witness: the theorem applied at time 1000 to the three concrete
schedules with an empty jobs table; only sch-1 is due. -/
theorem c6_tick_one_job_per_due_schedule_witness :
    runScheduledJobs 1000 idGenT (fun _ => true) ⟨[schedA, schedB, schedC], []⟩ =
      { schedules := [schedA, schedB, schedC].map (fun x =>
          if x.is_active && decide (x.next_run ≤ (1000 : Int)) then
            updateScheduleRow 1000 x x
          else x)
        sync_jobs := ([] : List SyncJob) ++
          (getActiveSchedules 1000 [schedA, schedB, schedC]).enum.map
            (fun p => executedJobRow 1000 (idGenT p.1) true p.2) } :=
  c6_tick_one_job_per_due_schedule 1000 idGenT (fun _ => true)
    ⟨[schedA, schedB, schedC], []⟩ (by decide) (by decide) (by decide)

/-- C10: when the products query fails, getProductsForSync swallows the
error and returns the empty list, and performInventorySync then reports
overall success with zero synced products and an empty error list —
exactly the summary produced when the query genuinely returns no
products, so the two runs are indistinguishable at the public
interface. -/
theorem c10_query_error_reports_clean_success (envOf : Product → SyncEnv) (e : String) :
    performInventorySync envOf (.error e) = ⟨true, 0, []⟩ ∧
    performInventorySync envOf (.ok []) = ⟨true, 0, []⟩ :=
  ⟨rfl, rfl⟩

end Toko
